import Mathlib

/-!
Verification development for the intelligent package carrier robot
(single-camera Raspberry Pi 4B variant).

The Python modules under verification are shallowly embedded here:

* `obstacle_sensor.py` (package variant) — the phased ultrasonic avoidance
  state machine `ObstacleSensor.update`;
* `motion_controller.py` (package variant) — `MotionController.compute`
  with smart avoidance, search-toward-target, normal tracking and the
  dead-reckoning rotation estimate;
* `motion_controller.py` (top-level baseline variant) —
  `MotionController.compute` with the avoidance-first override;
* `track_main.py` (package variant) — `TrackSystem.analyze_obstacle_type`;
* `A/modified3.py` — `search_control_loop`;
* `qr_detector.py` — `QRDetector._estimate_distance` and `QRDetector.detect`.

Real-valued sensor and speed arithmetic is modelled over `ℚ` where the
source uses only field operations and comparisons, and over `ℝ` where the
source takes Euclidean norms (`np.linalg.norm`).  Python dictionaries that
always carry the same keys are modelled as structures; `dict.get` defaults
correspond to fields that are always present.  Wall-clock time
(`time.time()`) is passed in explicitly as the `now` argument and `sleep`
calls are ignored.
-/

set_option autoImplicit false

/-! ### Obstacle avoidance state machine (`obstacle_sensor.py`, package variant)

`ObstacleSensor.update` reads a filtered distance `d` (via `read_distance`,
which also refreshes `dynamic_safe_distance`; both are passed in here as the
arguments `d` and `safe`) and steps the avoidance state machine.  The phase
strings of the source become the inductive type `ObstPhase`; the Python
`None` phase is `Option.none`. -/

inductive ObstPhase where
  | turnRight
  | forward1
  | turnLeft
  | forward2
  | stopClose
  deriving DecidableEq, Repr

inductive ObstAction where
  | right
  | left
  | forward
  | stop
  deriving DecidableEq, Repr

/-- Configuration fields of `ObstacleSensor.__init__` that `update` reads.
The phase durations are the values after the `min(·, 5.0)` clamp. -/
structure ObstParams where
  safe_distance_cm : ℚ
  stop_distance_cm : ℚ
  right_turn_time : ℚ
  forward_time_1 : ℚ
  left_turn_time : ℚ
  forward_time_2 : ℚ

/-- Mutable fields of `ObstacleSensor` that `update` touches. -/
structure ObstState where
  avoid_mode : Bool
  phase : Option ObstPhase
  phase_start : ℚ
  deriving DecidableEq, Repr

/-- The dictionary built by `ObstacleSensor._create_state`. -/
structure ObstOut where
  obstacle_near : Bool
  need_stop : Bool
  avoid_mode : Bool
  phase : Option ObstPhase
  action : Option ObstAction
  distance_cm : ℚ
  safe_distance : ℚ
  deriving DecidableEq, Repr

/-- Fresh `ObstacleSensor` state machine fields (`avoid_mode = False`,
`phase = None`, `phase_start = 0`). -/
def ObstState.init : ObstState := ⟨false, none, 0⟩

/-- Stage 4 of `ObstacleSensor.update` (`# 阶段4: 前进2`) together with the
trailing default return.  `s.avoid_mode` is `True` on every path that
reaches this code. -/
def ObstacleSensor.updateStage4 (p : ObstParams) (d safe now : ℚ) (s : ObstState) :
    ObstState × ObstOut :=
  if s.phase = some .forward2 then
    if now - s.phase_start < p.forward_time_2 then
      (s, ⟨true, false, s.avoid_mode, some .forward2, some .forward, d, safe⟩)
    else
      let s' : ObstState := ⟨s.avoid_mode, none, s.phase_start⟩
      (s', ⟨decide (d ≤ safe), false, s'.avoid_mode, none, none, d, safe⟩)
  else
    (s, ⟨decide (d ≤ safe), false, s.avoid_mode, s.phase, none, d, safe⟩)

/-- Stage 3 of `ObstacleSensor.update` (`# 阶段3: 左转`). -/
def ObstacleSensor.updateStage3 (p : ObstParams) (d safe now : ℚ) (s : ObstState) :
    ObstState × ObstOut :=
  if s.phase = some .turnLeft then
    if now - s.phase_start < p.left_turn_time then
      (s, ⟨true, false, s.avoid_mode, some .turnLeft, some .left, d, safe⟩)
    else
      ObstacleSensor.updateStage4 p d safe now ⟨s.avoid_mode, some .forward2, now⟩
  else
    ObstacleSensor.updateStage4 p d safe now s

/-- Stage 2 of `ObstacleSensor.update` (`# 阶段2: 前进1`). -/
def ObstacleSensor.updateStage2 (p : ObstParams) (d safe now : ℚ) (s : ObstState) :
    ObstState × ObstOut :=
  if s.phase = some .forward1 then
    if now - s.phase_start < p.forward_time_1 then
      (s, ⟨true, false, s.avoid_mode, some .forward1, some .forward, d, safe⟩)
    else
      ObstacleSensor.updateStage3 p d safe now ⟨s.avoid_mode, some .turnLeft, now⟩
  else
    ObstacleSensor.updateStage3 p d safe now s

/-- Stage 1 of `ObstacleSensor.update` (`# 阶段1: 右转`). -/
def ObstacleSensor.updateStage1 (p : ObstParams) (d safe now : ℚ) (s : ObstState) :
    ObstState × ObstOut :=
  if s.phase = some .turnRight then
    if now - s.phase_start < p.right_turn_time then
      (s, ⟨true, false, s.avoid_mode, some .turnRight, some .right, d, safe⟩)
    else
      ObstacleSensor.updateStage2 p d safe now ⟨s.avoid_mode, some .forward1, now⟩
  else
    ObstacleSensor.updateStage2 p d safe now s

/-- `ObstacleSensor.update` of the package variant.  `d` is the filtered
distance returned by `read_distance`, `safe` is `self.dynamic_safe_distance`
(the `current_safe_distance` local), `now` is `time.time()`.  Returns the
updated machine state and the state dictionary. -/
def ObstacleSensor.update (p : ObstParams) (d safe now : ℚ) (s : ObstState) :
    ObstState × ObstOut :=
  -- ---- 靠得太近：强制停止 ----
  if d ≤ p.stop_distance_cm then
    let s' : ObstState := ⟨true, some .stopClose, now⟩
    (s', ⟨true, true, true, some .stopClose, some .stop, d, safe⟩)
  else
    -- ---- 进入避障模式 ----
    let s1 : ObstState :=
      if d ≤ safe ∧ s.avoid_mode = false then ⟨true, some .turnRight, now⟩ else s
    -- ---- 离开障碍，退出模式 ----
    let s2 : ObstState :=
      if safe * (18/10) < d ∧ s1.avoid_mode = true ∧ s1.phase = none then
        ⟨false, s1.phase, s1.phase_start⟩
      else s1
    -- ===== 避障状态机 =====
    if s2.avoid_mode = false then
      (s2, ⟨false, false, s2.avoid_mode, none, none, d, safe⟩)
    else
      ObstacleSensor.updateStage1 p d safe now s2

/-- Successor along the avoidance cycle
`None → TURN_RIGHT → FORWARD_1 → TURN_LEFT → FORWARD_2 → None`;
`STOP_CLOSE` has no cycle successor and maps to itself. -/
def phaseNext : Option ObstPhase → Option ObstPhase
  | none => some .turnRight
  | some .turnRight => some .forward1
  | some .forward1 => some .turnLeft
  | some .turnLeft => some .forward2
  | some .forward2 => none
  | some .stopClose => some .stopClose

/-- Reachability invariant of the sensor state machine: avoid mode is only
ever cleared while the phase is `None`, so a state outside avoid mode has
phase `None`. -/
def ObstInv (s : ObstState) : Prop := s.avoid_mode = false → s.phase = none

/-- Default obstacle configuration of `ObstacleSensor.__init__`
(`safe_distance_cm = 30`, `stop_distance_cm = 12`, phase times
`0.8 / 0.6 / 0.8 / 0.6` seconds, all below the `5.0` ceiling). -/
def defaultObstParams : ObstParams :=
  ⟨30, 12, 8/10, 6/10, 8/10, 6/10⟩

example :
    (ObstacleSensor.update defaultObstParams 20 30 0 ObstState.init).1.phase
      = some .turnRight := by
  norm_num [ObstacleSensor.update, ObstacleSensor.updateStage1, ObstacleSensor.updateStage2,
    ObstacleSensor.updateStage3, ObstacleSensor.updateStage4, defaultObstParams, ObstState.init]

example :
    (ObstacleSensor.update defaultObstParams 10 30 0 ObstState.init).2.need_stop
      = true := by
  norm_num [ObstacleSensor.update, defaultObstParams, ObstState.init]

/-! ### Motion controller (`motion_controller.py`, package variant)

`MotionController.compute` receives the `qr_state` dictionary from
`QRDetector.detect` (possibly refreshed by `track_main`), the
`obstacle_state` dictionary from `ObstacleSensor.update` (with the extra
keys `obstacle_type` and `ground_obstacle_confirmed` added by `track_main`),
and `extra_info`.  All `.get` defaults of the source correspond to the
always-present fields below. -/

/-- The `qr_state` dictionary fields read by the motion controller. -/
structure QrInput where
  lost : Bool
  distance_cm : ℚ
  cx_off : ℚ
  cy_off : ℚ
  pitch_trend : ℚ
  yaw_trend : ℚ

/-- The `obstacle_state` dictionary as consumed by the motion controllers:
the fields of `ObstacleSensor.update`'s result plus the keys that
`track_main.TrackSystem.run` merges in. -/
structure ObstacleDict where
  obstacle_near : Bool
  need_stop : Bool
  avoid_mode : Bool
  action : Option ObstAction
  distance_cm : ℚ
  safe_distance : ℚ
  obstacle_type : String
  ground_obstacle_confirmed : Bool

/-- The `extra_info` dictionary fields read by `compute`. -/
structure ExtraInfo where
  target_direction : ℚ
  qr_lost_timer : ℚ

/-- The result dictionary of the package variant `compute`. -/
structure MotionOut where
  left_speed : ℚ
  right_speed : ℚ
  mode : String
  rotation_estimate : ℚ

/-- Mutable fields of the package-variant `MotionController` that `compute`
reads or writes (`self.Halt` is the `Halt` field). -/
structure MCState where
  cumulative_rotation : ℚ
  last_left_speed : ℚ
  last_right_speed : ℚ
  last_update_time : ℚ
  Halt : ℚ
  last_mode : String
  target_direction_history : List ℚ

/-- Speed/PID configuration of `MotionController.__init__`
(package variant; superset of the baseline variant's fields). -/
structure SpeedParams where
  base_forward : ℚ
  forward_comp : ℚ
  base_turn : ℚ
  turn_comp : ℚ
  dead_zone_px : ℚ
  kp_dist : ℚ
  kp_pitch : ℚ
  kp_yaw : ℚ
  max_speed : ℚ
  min_speed : ℚ
  track_far : ℚ
  stop_near : ℚ
  obstacle_safe_distance : ℚ
  obstacle_stop_distance : ℚ
  search_base_speed : ℚ
  search_turn_gain : ℚ
  max_rotation_deviation : ℚ

/-- The default values of `speed_params.json` keys as hard-coded in
`MotionController.__init__`. -/
def defaultSpeedParams : SpeedParams where
  base_forward := 35/100
  forward_comp := 8/10
  base_turn := 28/100
  turn_comp := 45/100
  dead_zone_px := 25
  kp_dist := 15/1000
  kp_pitch := 1/100
  kp_yaw := 4/1000
  max_speed := 1
  min_speed := -1
  track_far := 120
  stop_near := 22
  obstacle_safe_distance := 30
  obstacle_stop_distance := 12
  search_base_speed := 2/10
  search_turn_gain := 3/10
  max_rotation_deviation := 60

/-- Fresh `MotionController` state (`cumulative_rotation = 0`, zero last
speeds, `last_update_time` taken as time origin 0, `Halt = 1`). -/
def MCState.init : MCState := ⟨0, 0, 0, 0, 1, "idle", []⟩

/-- `MotionController._clamp`. -/
def MotionController.clamp (p : SpeedParams) (v : ℚ) : ℚ :=
  max p.min_speed (min p.max_speed v)

/-- `MotionController._estimate_rotation`: simplified dead-reckoning model,
`max_speed_diff = 0.5`, `max_rotation_rate = 180` deg/s. -/
def MotionController.estimate_rotation (left_speed right_speed dt : ℚ) : ℚ :=
  if dt ≤ 0 then 0
  else ((right_speed - left_speed) / (5/10)) * 180 * dt

/-- Python's `%` on rationals for a positive modulus (result in `[0, b)`). -/
def pymod (a b : ℚ) : ℚ := a - b * ⌊a / b⌋

/-- `MotionController._update_rotation_estimate`: integrates the rotation
from the *stored* last speeds, wraps with `% 360` when the magnitude exceeds
`360`, then stores its arguments as the new last speeds and `now` as the
last update time.  Returns the new state and the cumulative rotation. -/
def MotionController.update_rotation_estimate
    (s : MCState) (left_speed right_speed now : ℚ) : MCState × ℚ :=
  let dt := now - s.last_update_time
  let cum :=
    if 0 < dt then
      let c := s.cumulative_rotation +
        MotionController.estimate_rotation s.last_left_speed s.last_right_speed dt
      if 360 < |c| then pymod c 360 else c
    else s.cumulative_rotation
  (⟨cum, left_speed, right_speed, now, s.Halt, s.last_mode,
    s.target_direction_history⟩, cum)

/-- `MotionController._search_toward_target`: direction-biased forward
search; negative wheel speeds are floored to zero at the end. -/
def MotionController.search_toward_target
    (p : SpeedParams) (halt target_direction cumulative_rotation : ℚ) :
    ℚ × ℚ × String :=
  let tdc := max (-100) (min 100 target_direction)
  let lrm : ℚ × ℚ × String :=
    if p.max_rotation_deviation < |cumulative_rotation| then
      if 0 < cumulative_rotation then
        (-(p.search_base_speed * (8/10)) * halt, p.search_base_speed * (8/10) * halt,
          "search_correct_left")
      else
        (p.search_base_speed * (8/10) * halt, -(p.search_base_speed * (8/10)) * halt,
          "search_correct_right")
    else
      let direction_factor := tdc / 100
      if |direction_factor| < 1/10 then
        (p.search_base_speed * halt, p.search_base_speed * halt, "search_forward")
      else
        let turn_strength := |direction_factor| * p.search_turn_gain
        if 0 < direction_factor then
          (p.search_base_speed * halt, p.search_base_speed * (1 - turn_strength) * halt,
            "search_right")
        else
          (p.search_base_speed * (1 - turn_strength) * halt, p.search_base_speed * halt,
            "search_left")
  (max 0 lrm.1, max 0 lrm.2.1, lrm.2.2)

/-- `MotionController._smart_avoidance`: avoidance that biases toward the
remembered target direction.  Sets `self.Halt` from `need_stop` first; the
updated `Halt` is the last component of the result. -/
def MotionController.smart_avoidance
    (p : SpeedParams) (obst : ObstacleDict) (target_direction cumulative_rotation : ℚ) :
    ℚ × ℚ × String × ℚ :=
  let halt : ℚ := if obst.need_stop = true then 0 else 1
  let distance := obst.distance_cm
  -- 紧急避障：距离非常近
  if distance ≤ p.obstacle_stop_distance then
    if 0 < target_direction then
      (MotionController.clamp p (-(p.base_turn * (3/10)) * halt),
        MotionController.clamp p (p.base_turn * (3/10) * halt),
        "emergency_avoid_left", halt)
    else
      (MotionController.clamp p (p.base_turn * (3/10) * halt),
        MotionController.clamp p (-(p.base_turn * (3/10)) * halt),
        "emergency_avoid_right", halt)
  else
    match obst.action with
    | some .stop =>
      if |cumulative_rotation| < p.max_rotation_deviation then
        if 10 < target_direction then
          (p.base_turn * (15/100) * halt, -(p.base_turn * (15/100)) * halt,
            "stop_adjust_right", halt)
        else if target_direction < -10 then
          (-(p.base_turn * (15/100)) * halt, p.base_turn * (15/100) * halt,
            "stop_adjust_left", halt)
        else (0, 0, "stop", halt)
      else (0, 0, "stop_too_far", halt)
    | some .right =>
      let lrm : ℚ × ℚ × String :=
        if target_direction < -20 then
          (-(p.base_turn * (6/10)) * halt, p.base_turn * (6/10) * halt, "avoid_right_soft")
        else (-p.base_turn * halt, p.base_turn * halt, "avoid_right")
      if obst.ground_obstacle_confirmed = true then
        let forward_component := p.search_base_speed * (2/10)
        (MotionController.clamp p (lrm.1 + forward_component),
          MotionController.clamp p (lrm.2.1 + forward_component), lrm.2.2, halt)
      else (lrm.1, lrm.2.1, lrm.2.2, halt)
    | some .left =>
      let lrm : ℚ × ℚ × String :=
        if 20 < target_direction then
          (p.base_turn * (6/10) * halt, -(p.base_turn * (6/10)) * halt, "avoid_left_soft")
        else (p.base_turn * halt, -p.base_turn * halt, "avoid_left")
      if obst.ground_obstacle_confirmed = true then
        let forward_component := p.search_base_speed * (2/10)
        (MotionController.clamp p (lrm.1 + forward_component),
          MotionController.clamp p (lrm.2.1 + forward_component), lrm.2.2, halt)
      else (lrm.1, lrm.2.1, lrm.2.2, halt)
    | some .forward =>
      let base_speed := p.base_forward * (6/10)
      if 20 < target_direction then
        (base_speed * (12/10) * halt, base_speed * (8/10) * halt, "forward_lean_right", halt)
      else if target_direction < -20 then
        (base_speed * (8/10) * halt, base_speed * (12/10) * halt, "forward_lean_left", halt)
      else (base_speed * halt, base_speed * halt, "forward", halt)
    | none =>
      let lrm := MotionController.search_toward_target p halt target_direction
        cumulative_rotation
      (lrm.1, lrm.2.1, lrm.2.2, halt)

/-- `MotionController._normal_tracking`: marker-following with
ground-obstacle evasion, pitch compensation and dead-zone steering. -/
def MotionController.normal_tracking
    (p : SpeedParams) (qr : QrInput) (obst : ObstacleDict) : ℚ × ℚ × String :=
  let dist := qr.distance_cm
  let cx := qr.cx_off
  let pitch := qr.pitch_trend
  let ultrasonic_distance := obst.distance_cm
  if obst.obstacle_type = "ground_obstacle" ∧
      ultrasonic_distance < p.obstacle_safe_distance ∧
      ultrasonic_distance < dist * (8/10) then
    let lrm : ℚ × ℚ × String :=
      if 0 < cx then
        (p.base_forward * (7/10), p.base_forward * (9/10), "track_avoid_left")
      else
        (p.base_forward * (9/10), p.base_forward * (7/10), "track_avoid_right")
    if 5 < pitch then (lrm.1 * (11/10), lrm.2.1 * (11/10), lrm.2.2)
    else if pitch < -5 then (lrm.1 * (9/10), lrm.2.1 * (9/10), lrm.2.2)
    else lrm
  else if dist ≤ p.stop_near then (0, 0, "near_stop")
  else
    let distance_factor := min 1 ((dist - p.stop_near) / (p.track_far - p.stop_near))
    let forward0 := p.base_forward + distance_factor * (p.max_speed - p.base_forward)
    let forward1 :=
      if 5 < pitch then forward0 * (11/10)
      else if pitch < -5 then forward0 * (9/10)
      else forward0
    let forward := min forward1 p.max_speed
    let lrm : ℚ × ℚ × String :=
      if |cx| < p.dead_zone_px then (forward, forward, "forward")
      else
        let turn_strength := min (|cx| / 100) 1
        if 0 < cx then
          (forward, forward * (1 - turn_strength * p.turn_comp), "turn_right")
        else
          (forward * (1 - turn_strength * p.turn_comp), forward, "turn_left")
    (max 0 lrm.1, max 0 lrm.2.1, lrm.2.2)

/-- `MotionController.compute` of the package variant: updates the rotation
estimate first (from the stored last speeds), dispatches to tracking, smart
avoidance or search, then stores `left*0.7` and `right` as the last speeds
for the next tick's dead-reckoning.  Returns the result dictionary and the
updated controller state. -/
def MotionController.compute
    (p : SpeedParams) (s : MCState) (qr : QrInput) (obst : ObstacleDict)
    (extra : ExtraInfo) (now : ℚ) : MotionOut × MCState :=
  let target_direction := extra.target_direction
  -- 更新旋转角度估计
  let sc := MotionController.update_rotation_estimate s s.last_left_speed
    s.last_right_speed now
  let s1 := sc.1
  let cumulative_rotation := sc.2
  let lrms : ℚ × ℚ × String × MCState :=
    if qr.lost = false then
      -- ---------- 有有效二维码 ----------
      let lrm := MotionController.normal_tracking p qr obst
      let hist := s1.target_direction_history ++ [target_direction]
      let hist2 := if 20 < hist.length then hist.tail else hist
      (lrm.1, lrm.2.1, lrm.2.2,
        ⟨s1.cumulative_rotation, s1.last_left_speed, s1.last_right_speed,
          s1.last_update_time, s1.Halt, s1.last_mode, hist2⟩)
    else
      -- ---------- 丢失二维码 ----------
      if obst.obstacle_near = true then
        let lrmh := MotionController.smart_avoidance p obst target_direction
          cumulative_rotation
        (lrmh.1, lrmh.2.1, lrmh.2.2.1,
          ⟨s1.cumulative_rotation, s1.last_left_speed, s1.last_right_speed,
            s1.last_update_time, lrmh.2.2.2, s1.last_mode, s1.target_direction_history⟩)
      else
        let lrm := MotionController.search_toward_target p s1.Halt target_direction
          cumulative_rotation
        (lrm.1, lrm.2.1, lrm.2.2, s1)
  let left := lrms.1
  let right := lrms.2.1
  let mode := lrms.2.2.1
  let s2 := lrms.2.2.2
  -- 保存最后的速度用于旋转估计
  let s3 : MCState :=
    ⟨s2.cumulative_rotation, left * (7/10), right, s2.last_update_time, s2.Halt,
      mode, s2.target_direction_history⟩
  (⟨left, right, mode, cumulative_rotation⟩, s3)

example :
    (MotionController.compute defaultSpeedParams MCState.init
      ⟨true, 0, 0, 0, 0, 0⟩
      ⟨false, false, false, none, 9999, 30, "unknown", false⟩
      ⟨0, 0⟩ 1).1.left_speed = 2/10 := by
  norm_num [MotionController.compute, MotionController.update_rotation_estimate,
    MotionController.estimate_rotation, MotionController.search_toward_target,
    MCState.init, defaultSpeedParams]

/-! ### Baseline motion controller (`motion_controller.py`, top-level variant)

The baseline `MotionController.compute(qr_state, obstacle_state)` gives the
avoidance state machine full priority: when `obstacle_state["avoid_mode"]`
is set it returns `_avoid_motion`'s command without reading `qr_state`. -/

/-- Mutable fields of the baseline `MotionController` written by `compute`
(slope memory and diagnostic mode tag). -/
structure BaseMCState where
  last_slope : String
  on_slope : Bool
  last_mode : String

/-- The result dictionary of the baseline `compute`. -/
structure BaseMotionOut where
  left_speed : ℚ
  right_speed : ℚ
  mode : String

/-- `MotionController._vector_formula` of the baseline variant. -/
def BaselineMotionController.vector_formula
    (p : SpeedParams) (stop_flag turn_flag forward_base turn_base turn_dir : ℚ) : ℚ :=
  stop_flag * turn_flag * (p.forward_comp * forward_base)
    + stop_flag * (1 - turn_flag) * (turn_base + turn_dir * p.turn_comp * turn_base)

/-- `MotionController._avoid_motion` of the baseline variant: maps the
obstacle action to a fixed command; reads nothing else. -/
def BaselineMotionController.avoid_motion
    (p : SpeedParams) (obst : ObstacleDict) : ℚ × ℚ × String :=
  match obst.action with
  | some .stop => (0, 0, "avoid_stop")
  | some .right => (-p.base_turn, p.base_turn, "avoid_right")
  | some .left => (p.base_turn, -p.base_turn, "avoid_left")
  | some .forward => (p.base_forward * (6/10), p.base_forward * (6/10), "avoid_forward")
  | none => (0, 0, "avoid_idle")

/-- `MotionController._slope_adjust` of the baseline variant: returns the
forward-speed adjustment and updates the slope memory. -/
def BaselineMotionController.slope_adjust
    (s : BaseMCState) (pitch_trend : ℚ) : ℚ × BaseMCState :=
  if |pitch_trend| < 2 then (0, ⟨"flat", false, s.last_mode⟩)
  else if 0 < pitch_trend then (5/100, ⟨"up", true, s.last_mode⟩)
  else (-(5/100), ⟨"down", true, s.last_mode⟩)

/-- `math.copysign(1.0, x)` for rational `x` (Python's negative zero cannot
be represented in `ℚ`; it only arises inside the dead zone, where the sign
is unused). -/
def copysign1 (x : ℚ) : ℚ := if x < 0 then -1 else 1

/-- `MotionController.compute` of the baseline variant. -/
def BaselineMotionController.compute
    (p : SpeedParams) (s : BaseMCState) (qr : QrInput) (obst : ObstacleDict) :
    BaseMotionOut × BaseMCState :=
  -- ---------- 避障优先 ----------
  if obst.avoid_mode = true then
    let lrm := BaselineMotionController.avoid_motion p obst
    (⟨lrm.1, lrm.2.1, lrm.2.2⟩, ⟨s.last_slope, s.on_slope, lrm.2.2⟩)
  -- ---------- 丢失二维码 ----------
  else if qr.lost = true then
    (⟨0, 0, "lost_wait"⟩, ⟨s.last_slope, s.on_slope, "lost_keep"⟩)
  else
    let dist := qr.distance_cm
    let cx := qr.cx_off
    let pitch := qr.pitch_trend
    let yaw := qr.yaw_trend
    -- ---------- 距离相关 ----------
    if dist ≤ p.stop_near then
      (⟨0, 0, "near_stop"⟩, ⟨s.last_slope, s.on_slope, "target_near_stop"⟩)
    else
      -- ---------- 上坡/下坡补偿 ----------
      let adj := BaselineMotionController.slope_adjust s pitch
      let slope_adj := adj.1
      let s1 := adj.2
      -- ---------- 前进速度 PID ----------
      let forward := MotionController.clamp p
        (p.base_forward + p.kp_dist * (dist - p.stop_near) + p.kp_pitch * slope_adj)
      -- ---------- 转向判定（中央死区） ----------
      let td : ℚ × ℚ :=
        if |cx| < p.dead_zone_px then (0, 0) else (-(copysign1 cx), 1)
      let turn_dir := td.1
      let turn_flag := td.2
      let _turn := MotionController.clamp p (p.kp_yaw * yaw)
      let stop_flag : ℚ := 1
      -- ---------- 向量公式 ----------
      let left := MotionController.clamp p
        (BaselineMotionController.vector_formula p stop_flag turn_flag forward
          p.base_turn turn_dir)
      let right := MotionController.clamp p
        (BaselineMotionController.vector_formula p stop_flag (1 - turn_flag) forward
          p.base_turn (-turn_dir))
      (⟨left, right, "track_follow"⟩, ⟨s1.last_slope, s1.on_slope, "track"⟩)

/-! ### Obstacle-type classification (`track_main.py`, package variant)

`TrackSystem.analyze_obstacle_type(qr_distance, ultrasonic_distance)`
compares the ultrasonic distance against the marker-derived distance. -/

/-- `TrackSystem.analyze_obstacle_type`.  `qr_distance = none` models the
Python `None` argument. -/
def TrackSystem.analyze_obstacle_type
    (qr_distance : Option ℚ) (ultrasonic_distance : ℚ) : String :=
  match qr_distance with
  | none => "unknown"
  | some dq =>
    if 300 < ultrasonic_distance then "unknown"
    else
      let r := ultrasonic_distance / dq
      if 8/10 ≤ r ∧ r ≤ 12/10 then "wall_qr"
      else if r < 8/10 then "ground_obstacle"
      else "error_or_tilted"

example : TrackSystem.analyze_obstacle_type (some 45) 40 = "wall_qr" := by
  norm_num [TrackSystem.analyze_obstacle_type]

/-! ### Search control loop (`A/modified3.py`)

`search_control_loop` runs `while control_mode == "search" and
search_attempt < max_search_attempts` with `max_search_attempts = 5`,
incrementing `search_attempt`, calling `qr_search_behavior()` and then
`detect_qr_code()`.  The detection outcomes are modelled by
`found : ℕ → Bool` indexed by the attempt number; the loop exits with
`control_mode = "auto"` on success.  After the loop, `stop()` is called iff
the attempt counter is exhausted; the returned triple is
`(search_attempt, control_mode, stop-called)`. -/

/-- The `while` loop of `search_control_loop`, parameterized by the current
attempt counter. -/
def searchLoopFrom (found : ℕ → Bool) (control_mode : String) (attempt : ℕ) :
    ℕ × String :=
  if h : control_mode = "search" ∧ attempt < 5 then
    if found (attempt + 1) then (attempt + 1, "auto")
    else searchLoopFrom found control_mode (attempt + 1)
  else (attempt, control_mode)
termination_by 5 - attempt
decreasing_by omega

/-- `search_control_loop`: runs the search loop from `search_attempt = 0`
and reports whether the post-loop `stop()` branch
(`search_attempt >= max_search_attempts`) was taken. -/
def search_control_loop (found : ℕ → Bool) (control_mode : String) :
    ℕ × String × Bool :=
  let r := searchLoopFrom found control_mode 0
  (r.1, r.2, decide (5 ≤ r.1))

/-! ### Marker localization (`qr_detector.py`, package variant)

`QRDetector._estimate_distance` and `QRDetector.detect` work on 4-corner
point sets in pixel coordinates; `np.linalg.norm` is the Euclidean norm, so
this part of the embedding lives over `ℝ`.  The decoder
(`cv2.QRCodeDetector.detectAndDecodeMulti`) is external: its output — the
`retval` flag and the zipped `(data, pts)` list — is the input of
`detect`. -/

noncomputable section

/-- A pixel-coordinate corner point. -/
structure Pt where
  x : ℝ
  y : ℝ

/-- `np.linalg.norm (a - b)` for 2-D points. -/
def ptNorm (a b : Pt) : ℝ := Real.sqrt ((a.x - b.x) ^ 2 + (a.y - b.y) ^ 2)

/-- An ordered 4-corner point set `p1, p2, p3, p4` of a detected marker. -/
structure QuadPts where
  p1 : Pt
  p2 : Pt
  p3 : Pt
  p4 : Pt

/-- The `pixel_size` computed by `_estimate_distance` (and recomputed by
`detect` for the reliability filter): the average of the two horizontal
edge norms `‖p2 - p1‖` and `‖p3 - p4‖`. -/
def pixel_size (pts : QuadPts) : ℝ :=
  (ptNorm pts.p2 pts.p1 + ptNorm pts.p3 pts.p4) / 2

/-- `QRDetector._estimate_distance`: `Z = qr_size_cm * fx / pixel_size`,
`None` when the pixel size is below the `1e-5` stability threshold. -/
def QRDetector.estimate_distance (qr_size_cm fx : ℝ) (pts : QuadPts) : Option ℝ :=
  if pixel_size pts < 1e-5 then none
  else some ((qr_size_cm * fx) / pixel_size pts)

/-- One `(data, pts)` element of the decoder output consumed by `detect`. -/
structure Candidate where
  data : String
  pts : QuadPts

/-- The candidate loop of `QRDetector.detect` (package variant): skip empty
payloads, skip pixel sizes below `20`, skip failed distance estimates, and
keep the strictly closest target seen so far (`best_dist` starts at
`1e9`). -/
def QRDetector.detectFold (qr_size_cm fx : ℝ) (cands : List Candidate)
    (best_target : Option (String × QuadPts × ℝ)) (best_dist : ℝ) :
    Option (String × QuadPts × ℝ) :=
  match cands with
  | [] => best_target
  | c :: rest =>
    if c.data = "" then QRDetector.detectFold qr_size_cm fx rest best_target best_dist
    else if pixel_size c.pts < 20 then
      QRDetector.detectFold qr_size_cm fx rest best_target best_dist
    else
      match QRDetector.estimate_distance qr_size_cm fx c.pts with
      | none => QRDetector.detectFold qr_size_cm fx rest best_target best_dist
      | some dist =>
        if dist < best_dist then
          QRDetector.detectFold qr_size_cm fx rest (some (c.data, c.pts, dist)) dist
        else QRDetector.detectFold qr_size_cm fx rest best_target best_dist

/-- `QRDetector.detect` (package variant), up to the final result assembly:
`none` models the `{"lost": True}` return, and a `some (data, pts, dist)`
result models the `lost=False` dictionary built from `best_target`.
`retval = false` also covers `pts_list is None`. -/
def QRDetector.detect (qr_size_cm fx : ℝ) (retval : Bool) (cands : List Candidate) :
    Option (String × QuadPts × ℝ) :=
  if retval = false ∨ cands.length = 0 then none
  else QRDetector.detectFold qr_size_cm fx cands none 1e9

end

/-! ## Theorems

### Avoidance state machine: claims C2 and C3 -/

lemma updateStage4_avoid_mode (p : ObstParams) (d safe now : ℚ) (s : ObstState) :
    (ObstacleSensor.updateStage4 p d safe now s).1.avoid_mode = s.avoid_mode := by
  unfold ObstacleSensor.updateStage4
  split_ifs <;> rfl

lemma updateStage3_avoid_mode (p : ObstParams) (d safe now : ℚ) (s : ObstState) :
    (ObstacleSensor.updateStage3 p d safe now s).1.avoid_mode = s.avoid_mode := by
  unfold ObstacleSensor.updateStage3
  split_ifs <;> simp [updateStage4_avoid_mode]

lemma updateStage2_avoid_mode (p : ObstParams) (d safe now : ℚ) (s : ObstState) :
    (ObstacleSensor.updateStage2 p d safe now s).1.avoid_mode = s.avoid_mode := by
  unfold ObstacleSensor.updateStage2
  split_ifs <;> simp [updateStage3_avoid_mode]

lemma updateStage1_avoid_mode (p : ObstParams) (d safe now : ℚ) (s : ObstState) :
    (ObstacleSensor.updateStage1 p d safe now s).1.avoid_mode = s.avoid_mode := by
  unfold ObstacleSensor.updateStage1
  split_ifs <;> simp [updateStage2_avoid_mode]

lemma updateStage4_need_stop (p : ObstParams) (d safe now : ℚ) (s : ObstState) :
    (ObstacleSensor.updateStage4 p d safe now s).2.need_stop = false := by
  unfold ObstacleSensor.updateStage4
  split_ifs <;> rfl

lemma updateStage3_need_stop (p : ObstParams) (d safe now : ℚ) (s : ObstState) :
    (ObstacleSensor.updateStage3 p d safe now s).2.need_stop = false := by
  unfold ObstacleSensor.updateStage3
  split_ifs <;> simp [updateStage4_need_stop]

lemma updateStage2_need_stop (p : ObstParams) (d safe now : ℚ) (s : ObstState) :
    (ObstacleSensor.updateStage2 p d safe now s).2.need_stop = false := by
  unfold ObstacleSensor.updateStage2
  split_ifs <;> simp [updateStage3_need_stop]

lemma updateStage1_need_stop (p : ObstParams) (d safe now : ℚ) (s : ObstState) :
    (ObstacleSensor.updateStage1 p d safe now s).2.need_stop = false := by
  unfold ObstacleSensor.updateStage1
  split_ifs <;> simp [updateStage2_need_stop]

/-- C2: across every sequence of `ObstacleSensor.update` calls (with the
configured phase durations positive, as all default and clamped
configurations are, and from any state reachable from the initial one, i.e.
satisfying `ObstInv`), the machine phase either stays put or moves one step
along the cycle `None → TURN_RIGHT → FORWARD_1 → TURN_LEFT → FORWARD_2 →
None`; no phase is skipped or reordered.  Whenever the distance is at or
below the stop threshold, the machine enters `STOP_CLOSE` from every
phase. -/
theorem C2_phase_cycle (p : ObstParams) (d safe now : ℚ) (s : ObstState)
    (hinv : ObstInv s)
    (hrt : 0 < p.right_turn_time) (hf1 : 0 < p.forward_time_1)
    (hlt : 0 < p.left_turn_time) (hf2 : 0 < p.forward_time_2) :
    (d ≤ p.stop_distance_cm →
      (ObstacleSensor.update p d safe now s).1.phase = some .stopClose) ∧
    (p.stop_distance_cm < d →
      (ObstacleSensor.update p d safe now s).1.phase = s.phase ∨
      (ObstacleSensor.update p d safe now s).1.phase = phaseNext s.phase) := by
  obtain ⟨av, ph, ps⟩ := s
  refine ⟨fun hd => by simp [ObstacleSensor.update, hd], fun hd => ?_⟩
  have hd' : ¬ d ≤ p.stop_distance_cm := not_le.mpr hd
  cases av with
  | false =>
    have hph : ph = none := hinv rfl
    subst hph
    by_cases hsafe : d ≤ safe
    · simp [ObstacleSensor.update, hd', hsafe, ObstacleSensor.updateStage1,
        sub_self, hrt, phaseNext]
    · simp [ObstacleSensor.update, hd', hsafe]
  | true =>
    by_cases hexit : safe * (18/10) < d ∧ ph = none
    · simp [ObstacleSensor.update, hd', hexit.1, hexit.2]
    · cases ph with
      | none =>
        have hex : ¬ safe * (18/10) < d := fun hc => hexit ⟨hc, rfl⟩
        simp [ObstacleSensor.update, hd', hex, ObstacleSensor.updateStage1,
          ObstacleSensor.updateStage2, ObstacleSensor.updateStage3,
          ObstacleSensor.updateStage4]
      | some phv =>
        cases phv with
        | turnRight =>
          by_cases hel : now - ps < p.right_turn_time
          · simp [ObstacleSensor.update, hd', ObstacleSensor.updateStage1, hel]
          · simp [ObstacleSensor.update, hd', ObstacleSensor.updateStage1, hel,
              ObstacleSensor.updateStage2, sub_self, hf1, phaseNext]
        | forward1 =>
          by_cases hel : now - ps < p.forward_time_1
          · simp [ObstacleSensor.update, hd', ObstacleSensor.updateStage1,
              ObstacleSensor.updateStage2, hel]
          · simp [ObstacleSensor.update, hd', ObstacleSensor.updateStage1,
              ObstacleSensor.updateStage2, hel, ObstacleSensor.updateStage3,
              sub_self, hlt, phaseNext]
        | turnLeft =>
          by_cases hel : now - ps < p.left_turn_time
          · simp [ObstacleSensor.update, hd', ObstacleSensor.updateStage1,
              ObstacleSensor.updateStage2, ObstacleSensor.updateStage3, hel]
          · simp [ObstacleSensor.update, hd', ObstacleSensor.updateStage1,
              ObstacleSensor.updateStage2, ObstacleSensor.updateStage3, hel,
              ObstacleSensor.updateStage4, sub_self, hf2, phaseNext]
        | forward2 =>
          by_cases hel : now - ps < p.forward_time_2
          · simp [ObstacleSensor.update, hd', ObstacleSensor.updateStage1,
              ObstacleSensor.updateStage2, ObstacleSensor.updateStage3,
              ObstacleSensor.updateStage4, hel]
          · simp [ObstacleSensor.update, hd', ObstacleSensor.updateStage1,
              ObstacleSensor.updateStage2, ObstacleSensor.updateStage3,
              ObstacleSensor.updateStage4, hel, phaseNext]
        | stopClose =>
          simp [ObstacleSensor.update, hd', ObstacleSensor.updateStage1,
            ObstacleSensor.updateStage2, ObstacleSensor.updateStage3,
            ObstacleSensor.updateStage4]

/-- Witness for C2 at a concrete input: the initial state satisfies the
invariant, the default phase durations are positive, and a reading of
`20 cm` (inside the default safe distance `30 cm`, above the stop distance
`12 cm`) makes the phase step from `None` to `TURN_RIGHT`. -/
theorem C2_phase_cycle_witness :
    ObstInv ObstState.init ∧
    0 < defaultObstParams.right_turn_time ∧ 0 < defaultObstParams.forward_time_1 ∧
    0 < defaultObstParams.left_turn_time ∧ 0 < defaultObstParams.forward_time_2 ∧
    ((20:ℚ) ≤ defaultObstParams.stop_distance_cm →
      (ObstacleSensor.update defaultObstParams 20 30 0 ObstState.init).1.phase
        = some .stopClose) ∧
    (defaultObstParams.stop_distance_cm < (20:ℚ) →
      (ObstacleSensor.update defaultObstParams 20 30 0 ObstState.init).1.phase
        = ObstState.init.phase ∨
      (ObstacleSensor.update defaultObstParams 20 30 0 ObstState.init).1.phase
        = phaseNext ObstState.init.phase) := by
  have h := C2_phase_cycle defaultObstParams 20 30 0 ObstState.init
    (fun _ => rfl) (by norm_num [defaultObstParams]) (by norm_num [defaultObstParams])
    (by norm_num [defaultObstParams]) (by norm_num [defaultObstParams])
  exact ⟨fun _ => rfl, by norm_num [defaultObstParams], by norm_num [defaultObstParams],
    by norm_num [defaultObstParams], by norm_num [defaultObstParams], h.1, h.2⟩

/-- C3: `ObstacleSensor.update` returns `need_stop = true` with action
`stop` exactly on readings at or below `stop_distance_cm` (so the hard stop
persists only until the distance rises above the stop threshold), and avoid
mode is cleared only when the filtered distance exceeds `safe * 1.8` with
the maneuver phase complete (`phase = None`). -/
theorem C3_stop_close_and_avoid_exit (p : ObstParams) (d safe now : ℚ) (s : ObstState) :
    (d ≤ p.stop_distance_cm →
      (ObstacleSensor.update p d safe now s).2.need_stop = true ∧
      (ObstacleSensor.update p d safe now s).2.action = some .stop) ∧
    (p.stop_distance_cm < d →
      (ObstacleSensor.update p d safe now s).2.need_stop = false) ∧
    (s.avoid_mode = true →
      (ObstacleSensor.update p d safe now s).1.avoid_mode = false →
      safe * (18/10) < d ∧ s.phase = none) := by
  refine ⟨fun hd => by simp [ObstacleSensor.update, hd], fun hd => ?_, fun hav hcl => ?_⟩
  · have hd' : ¬ d ≤ p.stop_distance_cm := not_le.mpr hd
    simp only [ObstacleSensor.update, hd', if_false]
    split_ifs <;>
      first
        | rfl
        | exact updateStage1_need_stop p d safe now _
  · by_cases hexit : safe * (18/10) < d ∧ s.phase = none
    · exact ⟨hexit.1, hexit.2⟩
    · exfalso
      have htrue : (ObstacleSensor.update p d safe now s).1.avoid_mode = true := by
        by_cases hd : d ≤ p.stop_distance_cm
        · simp [ObstacleSensor.update, hd]
        · simp [ObstacleSensor.update, hd, hav, hexit, updateStage1_avoid_mode]
      rw [htrue] at hcl
      exact Bool.noConfusion hcl

/-- Witness for C3 at concrete inputs: with the default thresholds, a
`10 cm` reading forces `need_stop` with action `stop`; a `20 cm` reading
clears neither; and from an avoid-mode state with completed maneuver, a
`60 cm` reading (above `30 * 1.8 = 54`) clears avoid mode under exactly the
conditions the theorem states. -/
theorem C3_stop_close_witness :
    ((10:ℚ) ≤ defaultObstParams.stop_distance_cm ∧
      (ObstacleSensor.update defaultObstParams 10 30 0 ObstState.init).2.need_stop = true ∧
      (ObstacleSensor.update defaultObstParams 10 30 0 ObstState.init).2.action
        = some .stop) ∧
    (defaultObstParams.stop_distance_cm < (20:ℚ) ∧
      (ObstacleSensor.update defaultObstParams 20 30 0 ObstState.init).2.need_stop
        = false) ∧
    ((30:ℚ) * (18/10) < 60 ∧ (ObstState.mk true none 0).phase = none) := by
  have h10 := (C3_stop_close_and_avoid_exit defaultObstParams 10 30 0 ObstState.init).1
    (by norm_num [defaultObstParams])
  have h20 := (C3_stop_close_and_avoid_exit defaultObstParams 20 30 0 ObstState.init).2.1
    (by norm_num [defaultObstParams])
  have h60 := (C3_stop_close_and_avoid_exit defaultObstParams 60 30 0
      (ObstState.mk true none 0)).2.2 rfl
    (by norm_num [ObstacleSensor.update, defaultObstParams])
  exact ⟨⟨by norm_num [defaultObstParams], h10.1, h10.2⟩,
    ⟨by norm_num [defaultObstParams], h20⟩, h60⟩

/-! ### Baseline controller noninterference: claim C10 -/

/-- C10: in the baseline `MotionController`, whenever the obstacle state has
`avoid_mode = true`, `compute` returns the same `left_speed`, `right_speed`
and `mode` for any two marker observations: during avoidance the command
depends only on the obstacle action, so `qr_state` cannot influence the
motion command. -/
theorem C10_avoid_noninterference (p : SpeedParams) (s : BaseMCState)
    (qr1 qr2 : QrInput) (obst : ObstacleDict) (h : obst.avoid_mode = true) :
    (BaselineMotionController.compute p s qr1 obst).1
      = (BaselineMotionController.compute p s qr2 obst).1 := by
  simp [BaselineMotionController.compute, h]

/-- Witness for C10 at a concrete input: with the default parameters, an
avoid-mode obstacle state with action `right`, and two marker observations
that would command opposite turns if tracking were active, the issued
command is identical. -/
theorem C10_avoid_noninterference_witness :
    (ObstacleDict.mk true false true (some .right) 25 30 "unknown" false).avoid_mode
        = true ∧
    (BaselineMotionController.compute defaultSpeedParams ⟨"flat", false, "idle"⟩
        ⟨false, 80, 60, 0, 0, 0⟩
        (ObstacleDict.mk true false true (some .right) 25 30 "unknown" false)).1
      = (BaselineMotionController.compute defaultSpeedParams ⟨"flat", false, "idle"⟩
          ⟨false, 80, -60, 0, 0, 0⟩
          (ObstacleDict.mk true false true (some .right) 25 30 "unknown" false)).1 :=
  ⟨rfl, C10_avoid_noninterference defaultSpeedParams ⟨"flat", false, "idle"⟩
    ⟨false, 80, 60, 0, 0, 0⟩ ⟨false, 80, -60, 0, 0, 0⟩
    (ObstacleDict.mk true false true (some .right) 25 30 "unknown" false) rfl⟩

/-! ### Obstacle-type classification: claim C5 -/

/-- C5 counterexample: the claim says `d_us = 40`, `d_qr = 45` is classified
`ground_obstacle`, but the ratio `40/45 ≈ 0.89` lies in `[0.8, 1.2]`, so
`analyze_obstacle_type` classifies it `wall_qr`.  Moreover a reading above
`300` is classified `unknown`, not by its ratio. -/
theorem C5_counterexample :
    TrackSystem.analyze_obstacle_type (some 45) 40 = "wall_qr" ∧
    TrackSystem.analyze_obstacle_type (some 45) 40 ≠ "ground_obstacle" ∧
    TrackSystem.analyze_obstacle_type (some 100) 400 = "unknown" ∧
    TrackSystem.analyze_obstacle_type (some 100) 400 ≠ "error_or_tilted" := by
  have h1 : TrackSystem.analyze_obstacle_type (some 45) 40 = "wall_qr" := by
    norm_num [TrackSystem.analyze_obstacle_type]
  have h2 : TrackSystem.analyze_obstacle_type (some 100) 400 = "unknown" := by
    norm_num [TrackSystem.analyze_obstacle_type]
  refine ⟨h1, by rw [h1]; decide, h2, by rw [h2]; decide⟩

/-- C5 (amended): for valid readings (`d_qr > 0` and `d_us ≤ 300`; larger
ultrasonic readings are rejected as invalid data), the classifier returns
`wall_qr` when `d_us/d_qr ∈ [0.8, 1.2]`, `ground_obstacle` when the
quotient is below `0.8`, and `error_or_tilted` when it is above `1.2`; in
particular `d_us = 40`, `d_qr = 45` (quotient `≈ 0.89`) is classified
`wall_qr`. -/
theorem C5_amended_classification (dq us : ℚ) (_hdq : 0 < dq) (hus : us ≤ 300) :
    ((8/10 ≤ us / dq ∧ us / dq ≤ 12/10) →
      TrackSystem.analyze_obstacle_type (some dq) us = "wall_qr") ∧
    (us / dq < 8/10 →
      TrackSystem.analyze_obstacle_type (some dq) us = "ground_obstacle") ∧
    (12/10 < us / dq →
      TrackSystem.analyze_obstacle_type (some dq) us = "error_or_tilted") := by
  have h300 : ¬ (300:ℚ) < us := not_lt.mpr hus
  refine ⟨fun hr => ?_, fun hr => ?_, fun hr => ?_⟩
  · simp [TrackSystem.analyze_obstacle_type, h300, hr.1, hr.2]
  · have h1 : ¬ (8/10 ≤ us / dq ∧ us / dq ≤ 12/10) := fun hc => absurd hr (not_lt.mpr hc.1)
    simp [TrackSystem.analyze_obstacle_type, h300, h1, hr]
  · have h1 : ¬ (8/10 ≤ us / dq ∧ us / dq ≤ 12/10) := fun hc => absurd hr (not_lt.mpr hc.2)
    have h2 : ¬ us / dq < 8/10 := by
      intro hc
      linarith
    simp [TrackSystem.analyze_obstacle_type, h300, h1, h2]

/-- Witness for C5 (amended) at the concrete readings of the claim:
`d_qr = 45 > 0`, `d_us = 40 ≤ 300`, quotient in `[0.8, 1.2]`, classified
`wall_qr`. -/
theorem C5_amended_witness :
    (0:ℚ) < 45 ∧ (40:ℚ) ≤ 300 ∧ ((8:ℚ)/10 ≤ 40/45 ∧ (40:ℚ)/45 ≤ 12/10) ∧
    TrackSystem.analyze_obstacle_type (some 45) 40 = "wall_qr" :=
  ⟨by norm_num, by norm_num, by norm_num,
    (C5_amended_classification 45 40 (by norm_num) (by norm_num)).1 (by norm_num)⟩

/-! ### Search loop exhaustion: claim C8 -/

lemma searchLoopFrom_le (found : ℕ → Bool) (mode : String) :
    ∀ (n attempt : ℕ), 5 - attempt ≤ n → attempt ≤ 5 →
      (searchLoopFrom found mode attempt).1 ≤ 5 := by
  intro n
  induction n with
  | zero =>
    intro a h1 h2
    rw [searchLoopFrom]
    have hc : ¬ (mode = "search" ∧ a < 5) := fun hc => by omega
    rw [dif_neg hc]
    exact h2
  | succ n ih =>
    intro a h1 h2
    rw [searchLoopFrom]
    split_ifs with hc hf
    · exact hc.2
    · exact ih (a + 1) (by omega) (by omega)
    · exact h2

/-- C8: the search loop in `A/modified3.py` indeed terminates within the
bounded maximum of 5 search attempts, but when the counter is exhausted
without re-acquiring the target it only stops the motors and exits the loop
with `control_mode` still `"search"` — it does not fall back to auto mode,
contradicting the function's own docstring (`搜索完成后自动返回自动模式`),
the exhaustion branch of the parallel `avoidance_control_loop`, and the
claim. -/
theorem C8_search_exhaustion :
    (∀ found : ℕ → Bool, (search_control_loop found "search").1 ≤ 5) ∧
    search_control_loop (fun _ => false) "search" = (5, "search", true) ∧
    (search_control_loop (fun _ => false) "search").2.1 ≠ "auto" := by
  refine ⟨fun found => searchLoopFrom_le found "search" 5 0 (by omega) (by omega),
    ?_, ?_⟩ <;>
    simp [search_control_loop, searchLoopFrom]

/-! ### Marker distance estimation: claim C6 -/

/-- C6: for every ordered 4-corner point set, the distance estimate fails
exactly when the pixel edge length (average of the horizontal edge norms)
is below `1e-5`; otherwise it equals `(qr_size_cm * fx) / pixel_size`,
which is strictly positive and strictly decreasing in the pixel edge length
for fixed positive `qr_size_cm` and `fx`. -/
theorem C6_distance_estimate (qr_size_cm fx : ℝ) (pts pts2 : QuadPts)
    (hq : 0 < qr_size_cm) (hf : 0 < fx) :
    (QRDetector.estimate_distance qr_size_cm fx pts = none ↔
      pixel_size pts < 1e-5) ∧
    (1e-5 ≤ pixel_size pts →
      QRDetector.estimate_distance qr_size_cm fx pts
          = some ((qr_size_cm * fx) / pixel_size pts) ∧
      0 < (qr_size_cm * fx) / pixel_size pts) ∧
    (1e-5 ≤ pixel_size pts → pixel_size pts < pixel_size pts2 →
      (qr_size_cm * fx) / pixel_size pts2 < (qr_size_cm * fx) / pixel_size pts) := by
  refine ⟨?_, fun h => ?_, fun h hlt => ?_⟩
  · unfold QRDetector.estimate_distance
    split_ifs with hc
    · simp [hc]
    · simp [hc]
  · have hc : ¬ pixel_size pts < 1e-5 := not_lt.mpr h
    have hp : (0:ℝ) < pixel_size pts := lt_of_lt_of_le (by norm_num) h
    exact ⟨by rw [QRDetector.estimate_distance, if_neg hc],
      div_pos (mul_pos hq hf) hp⟩
  · have hp : (0:ℝ) < pixel_size pts := lt_of_lt_of_le (by norm_num) h
    exact div_lt_div_of_pos_left (mul_pos hq hf) hp hlt

/-- Corners of a marker whose horizontal edges are axis-aligned with length
`4` px (used as concrete witness geometry). -/
def quadW1 : QuadPts := ⟨⟨0, 0⟩, ⟨4, 0⟩, ⟨4, 3⟩, ⟨0, 3⟩⟩

/-- Corners of a marker whose horizontal edges are axis-aligned with length
`8` px. -/
def quadW2 : QuadPts := ⟨⟨0, 0⟩, ⟨8, 0⟩, ⟨8, 3⟩, ⟨0, 3⟩⟩

lemma pixel_size_quadW1 : pixel_size quadW1 = 4 := by
  rw [pixel_size, quadW1, ptNorm, ptNorm]
  rw [show ((4:ℝ) - 0) ^ 2 + ((0:ℝ) - 0) ^ 2 = 4 ^ 2 by norm_num]
  rw [show ((4:ℝ) - 0) ^ 2 + ((3:ℝ) - 3) ^ 2 = 4 ^ 2 by norm_num]
  rw [Real.sqrt_sq (by norm_num)]
  norm_num

lemma pixel_size_quadW2 : pixel_size quadW2 = 8 := by
  rw [pixel_size, quadW2, ptNorm, ptNorm]
  rw [show ((8:ℝ) - 0) ^ 2 + ((0:ℝ) - 0) ^ 2 = 8 ^ 2 by norm_num]
  rw [show ((8:ℝ) - 0) ^ 2 + ((3:ℝ) - 3) ^ 2 = 8 ^ 2 by norm_num]
  rw [Real.sqrt_sq (by norm_num)]
  norm_num

/-- Witness for C6 at concrete geometry: marker size `2.5 cm`, `fx = 600`,
one marker with pixel edge length `4` and one with `8`. -/
theorem C6_distance_estimate_witness :
    (0:ℝ) < 5/2 ∧ (0:ℝ) < 600 ∧
    (1e-5:ℝ) ≤ pixel_size quadW1 ∧ pixel_size quadW1 < pixel_size quadW2 ∧
    QRDetector.estimate_distance (5/2) 600 quadW1
        = some ((5/2) * 600 / pixel_size quadW1) ∧
    0 < (5/2:ℝ) * 600 / pixel_size quadW1 ∧
    (5/2:ℝ) * 600 / pixel_size quadW2 < (5/2) * 600 / pixel_size quadW1 := by
  have h1 : (1e-5:ℝ) ≤ pixel_size quadW1 := by
    rw [pixel_size_quadW1]
    norm_num
  have h2 : pixel_size quadW1 < pixel_size quadW2 := by
    rw [pixel_size_quadW1, pixel_size_quadW2]
    norm_num
  have hth := C6_distance_estimate (5/2) 600 quadW1 quadW2 (by norm_num) (by norm_num)
  exact ⟨by norm_num, by norm_num, h1, h2, (hth.2.1 h1).1, (hth.2.1 h1).2,
    hth.2.2 h1 h2⟩

/-! ### Marker candidate selection: claims C7 and C9 -/

/-- A candidate that survives `detect`'s filters: nonempty payload and
pixel edge length at least the 20 px reliability threshold. -/
def QRDetector.valid (c : Candidate) : Prop :=
  c.data ≠ "" ∧ 20 ≤ pixel_size c.pts

/-- Corners of a marker with axis-aligned horizontal edges of length
`40` px. -/
def quadQ40 : QuadPts := ⟨⟨0, 0⟩, ⟨40, 0⟩, ⟨40, 40⟩, ⟨0, 40⟩⟩

/-- Corners of a marker with axis-aligned horizontal edges of length
`25` px. -/
def quadQ25 : QuadPts := ⟨⟨0, 0⟩, ⟨25, 0⟩, ⟨25, 25⟩, ⟨0, 25⟩⟩

lemma pixel_size_quadQ40 : pixel_size quadQ40 = 40 := by
  rw [pixel_size, quadQ40, ptNorm, ptNorm]
  rw [show ((40:ℝ) - 0) ^ 2 + ((0:ℝ) - 0) ^ 2 = 40 ^ 2 by norm_num]
  rw [show ((40:ℝ) - 0) ^ 2 + ((40:ℝ) - 40) ^ 2 = 40 ^ 2 by norm_num]
  rw [Real.sqrt_sq (by norm_num)]
  norm_num

lemma pixel_size_quadQ25 : pixel_size quadQ25 = 25 := by
  rw [pixel_size, quadQ25, ptNorm, ptNorm]
  rw [show ((25:ℝ) - 0) ^ 2 + ((0:ℝ) - 0) ^ 2 = 25 ^ 2 by norm_num]
  rw [show ((25:ℝ) - 0) ^ 2 + ((25:ℝ) - 25) ^ 2 = 25 ^ 2 by norm_num]
  rw [Real.sqrt_sq (by norm_num)]
  norm_num

/-- C9 counterexample: a frame whose only structurally detected marker has
good geometry (pixel edge length `40 ≥ 20`, distance estimable) but an
empty decoded payload yields `lost = True`: the marker is discarded, not
treated as a valid unidentified-payload candidate. -/
theorem C9_counterexample :
    QRDetector.detect (5/2) 600 true [⟨"", quadQ40⟩] = none ∧
    (20:ℝ) ≤ pixel_size quadQ40 ∧
    QRDetector.estimate_distance (5/2) 600 quadQ40 = some (75/2) := by
  refine ⟨?_, ?_, ?_⟩
  · simp [QRDetector.detect, QRDetector.detectFold]
  · rw [pixel_size_quadQ40]
    norm_num
  · rw [QRDetector.estimate_distance, if_neg (by rw [pixel_size_quadQ40]; norm_num),
      pixel_size_quadQ40]
    norm_num

/-- C9 (amended): `QRDetector.detect` discards a structurally detected
marker whose decoded payload is empty — the result is exactly as if that
marker were absent from the frame, so an empty-payload marker never becomes
a candidate for target selection. -/
theorem C9_empty_payload_discarded (qr_size_cm fx : ℝ) (retval : Bool)
    (c : Candidate) (rest : List Candidate) (h : c.data = "") :
    QRDetector.detect qr_size_cm fx retval (c :: rest)
      = QRDetector.detect qr_size_cm fx retval rest := by
  by_cases hr : retval = false
  · simp [QRDetector.detect, hr]
  · cases rest with
    | nil => simp [QRDetector.detect, hr, QRDetector.detectFold, h]
    | cons c' rest' => simp [QRDetector.detect, hr, QRDetector.detectFold, h]

/-- Witness for C9 (amended) at concrete inputs: prepending the
empty-payload marker of `C9_counterexample` to a frame containing a decoded
marker does not change the detection result. -/
theorem C9_empty_payload_witness :
    (Candidate.mk "" quadQ40).data = "" ∧
    QRDetector.detect (5/2) 600 true [⟨"", quadQ40⟩, ⟨"X", quadQ25⟩]
      = QRDetector.detect (5/2) 600 true [⟨"X", quadQ25⟩] :=
  ⟨rfl, C9_empty_payload_discarded (5/2) 600 true ⟨"", quadQ40⟩ [⟨"X", quadQ25⟩] rfl⟩

/-- Argmin specification of the candidate loop of `QRDetector.detect`:
starting from any accumulator, the loop either leaves the accumulator
unchanged (and every valid candidate in the list is at least as far as the
current best distance) or returns some valid candidate of the list whose
distance is below the starting best distance and minimal among all valid
candidates of the list. -/
lemma detectFold_spec (qs fx : ℝ) :
    ∀ (cands : List Candidate) (best : Option (String × QuadPts × ℝ)) (bd : ℝ),
      (QRDetector.detectFold qs fx cands best bd = best ∧
        ∀ c ∈ cands, QRDetector.valid c → bd ≤ qs * fx / pixel_size c.pts) ∨
      (∃ c ∈ cands, QRDetector.valid c ∧
        QRDetector.detectFold qs fx cands best bd
            = some (c.data, c.pts, qs * fx / pixel_size c.pts) ∧
        qs * fx / pixel_size c.pts < bd ∧
        ∀ c' ∈ cands, QRDetector.valid c' →
          qs * fx / pixel_size c.pts ≤ qs * fx / pixel_size c'.pts) := by
  intro cands
  induction cands with
  | nil =>
    intro best bd
    left
    exact ⟨rfl, by simp⟩
  | cons c rest ih =>
    intro best bd
    by_cases hdata : c.data = ""
    · have hfold : QRDetector.detectFold qs fx (c :: rest) best bd
          = QRDetector.detectFold qs fx rest best bd := by
        simp [QRDetector.detectFold, hdata]
      have hnv : ¬ QRDetector.valid c := fun hv => hv.1 hdata
      rcases ih best bd with ⟨heq, hall⟩ | ⟨c₀, hm, hv₀, heq, hlt, hmin⟩
      · left
        refine ⟨hfold.trans heq, fun c' hc' hv' => ?_⟩
        rcases List.mem_cons.mp hc' with rfl | hc'
        · exact absurd hv' hnv
        · exact hall c' hc' hv'
      · right
        refine ⟨c₀, List.mem_cons_of_mem _ hm, hv₀, hfold.trans heq, hlt,
          fun c' hc' hv' => ?_⟩
        rcases List.mem_cons.mp hc' with rfl | hc'
        · exact absurd hv' hnv
        · exact hmin c' hc' hv'
    · by_cases hps : pixel_size c.pts < 20
      · have hfold : QRDetector.detectFold qs fx (c :: rest) best bd
            = QRDetector.detectFold qs fx rest best bd := by
          simp [QRDetector.detectFold, hdata, hps]
        have hnv : ¬ QRDetector.valid c := fun hv => absurd hps (not_lt.mpr hv.2)
        rcases ih best bd with ⟨heq, hall⟩ | ⟨c₀, hm, hv₀, heq, hlt, hmin⟩
        · left
          refine ⟨hfold.trans heq, fun c' hc' hv' => ?_⟩
          rcases List.mem_cons.mp hc' with rfl | hc'
          · exact absurd hv' hnv
          · exact hall c' hc' hv'
        · right
          refine ⟨c₀, List.mem_cons_of_mem _ hm, hv₀, hfold.trans heq, hlt,
            fun c' hc' hv' => ?_⟩
          rcases List.mem_cons.mp hc' with rfl | hc'
          · exact absurd hv' hnv
          · exact hmin c' hc' hv'
      · have hv : QRDetector.valid c := ⟨hdata, not_lt.mp hps⟩
        have hest : QRDetector.estimate_distance qs fx c.pts
            = some (qs * fx / pixel_size c.pts) := by
          rw [QRDetector.estimate_distance, if_neg]
          intro hc
          have h20 : (20:ℝ) ≤ pixel_size c.pts := not_lt.mp hps
          linarith [hc, h20]
        by_cases hup : qs * fx / pixel_size c.pts < bd
        · have hfold : QRDetector.detectFold qs fx (c :: rest) best bd
              = QRDetector.detectFold qs fx rest
                  (some (c.data, c.pts, qs * fx / pixel_size c.pts))
                  (qs * fx / pixel_size c.pts) := by
            simp [QRDetector.detectFold, hdata, hps, hest, hup]
          rcases ih (some (c.data, c.pts, qs * fx / pixel_size c.pts))
              (qs * fx / pixel_size c.pts) with ⟨heq, hall⟩ | ⟨c₀, hm, hv₀, heq, hlt, hmin⟩
          · right
            refine ⟨c, List.mem_cons_self _ _, hv, hfold.trans heq, hup,
              fun c' hc' hv' => ?_⟩
            rcases List.mem_cons.mp hc' with rfl | hc'
            · exact le_refl _
            · exact hall c' hc' hv'
          · right
            refine ⟨c₀, List.mem_cons_of_mem _ hm, hv₀, hfold.trans heq,
              lt_trans hlt hup, fun c' hc' hv' => ?_⟩
            rcases List.mem_cons.mp hc' with rfl | hc'
            · exact le_of_lt hlt
            · exact hmin c' hc' hv'
        · have hfold : QRDetector.detectFold qs fx (c :: rest) best bd
              = QRDetector.detectFold qs fx rest best bd := by
            simp [QRDetector.detectFold, hdata, hps, hest, hup]
          rcases ih best bd with ⟨heq, hall⟩ | ⟨c₀, hm, hv₀, heq, hlt, hmin⟩
          · left
            refine ⟨hfold.trans heq, fun c' hc' hv' => ?_⟩
            rcases List.mem_cons.mp hc' with rfl | hc'
            · exact not_lt.mp hup
            · exact hall c' hc' hv'
          · right
            refine ⟨c₀, List.mem_cons_of_mem _ hm, hv₀, hfold.trans heq, hlt,
              fun c' hc' hv' => ?_⟩
            rcases List.mem_cons.mp hc' with rfl | hc'
            · exact le_of_lt (lt_of_lt_of_le hlt (not_lt.mp hup))
            · exact hmin c' hc' hv'

/-- C7 counterexample: with marker size `2.5 cm` and `fx = 600`, a frame
with an empty-payload marker of pixel edge length `40` (estimated distance
`37.5 cm`) and a decoded marker of pixel edge length `25` (estimated
distance `60 cm`) makes `detect` select the *farther* decoded marker: the
empty-payload candidate passes the 20 px size filter and is strictly
closer, yet it is discarded before the distance comparison, so the target
is not the minimum-distance survivor of the size filter alone. -/
theorem C7_counterexample :
    QRDetector.detect (5/2) 600 true [⟨"", quadQ40⟩, ⟨"X", quadQ25⟩]
        = some ("X", quadQ25, 60) ∧
    (20:ℝ) ≤ pixel_size quadQ40 ∧
    QRDetector.estimate_distance (5/2) 600 quadQ40 = some (75/2) ∧
    (75/2 : ℝ) < 60 := by
  refine ⟨?_, ?_, ?_, by norm_num⟩
  · have hest : QRDetector.estimate_distance (5/2) 600 quadQ25 = some 60 := by
      rw [QRDetector.estimate_distance, if_neg (by rw [pixel_size_quadQ25]; norm_num),
        pixel_size_quadQ25]
      norm_num
    have hx : ("X" : String) ≠ "" := by decide
    norm_num [QRDetector.detect, QRDetector.detectFold, hest, pixel_size_quadQ25, hx]
  · rw [pixel_size_quadQ40]
    norm_num
  · rw [QRDetector.estimate_distance, if_neg (by rw [pixel_size_quadQ40]; norm_num),
      pixel_size_quadQ40]
    norm_num

/-- C7 (amended): `QRDetector.detect` first discards candidates with an
*empty payload*, then those with pixel edge length below 20 px, and selects
among the remaining candidates one with the smallest estimated distance;
`lost = true` exactly when the decoder failed, the frame has no candidates,
or no candidate survives the payload and size filters (assuming the
physically meaningful bound `qr_size_cm * fx < 2·10¹⁰`, so that every
survivor's distance is below the `1e9` sentinel). -/
theorem C7_amended_selection (qs fx : ℝ) (retval : Bool) (cands : List Candidate)
    (hk : 0 < qs * fx) (hk2 : qs * fx < 2 * 10 ^ 10) :
    (QRDetector.detect qs fx retval cands = none ↔
      retval = false ∨ cands = [] ∨ ∀ c ∈ cands, ¬ QRDetector.valid c) ∧
    (∀ d pts dist, QRDetector.detect qs fx retval cands = some (d, pts, dist) →
      ∃ c ∈ cands, QRDetector.valid c ∧ d = c.data ∧ pts = c.pts ∧
        dist = qs * fx / pixel_size c.pts ∧
        ∀ c' ∈ cands, QRDetector.valid c' →
          dist ≤ qs * fx / pixel_size c'.pts) := by
  have hbig : ∀ c : Candidate, QRDetector.valid c →
      qs * fx / pixel_size c.pts < 1e9 := by
    intro c hv
    have h1 : qs * fx / pixel_size c.pts ≤ qs * fx / 20 :=
      div_le_div_of_nonneg_left (le_of_lt hk) (by norm_num) hv.2
    have h2 : qs * fx / 20 < 1e9 := by
      rw [div_lt_iff₀ (by norm_num)]
      calc qs * fx < 2 * 10 ^ 10 := hk2
        _ = 1e9 * 20 := by norm_num
    linarith
  by_cases hr : retval = false
  · refine ⟨by simp [QRDetector.detect, hr], fun d pts dist h => ?_⟩
    rw [QRDetector.detect] at h
    simp [hr] at h
  · cases cands with
    | nil =>
      refine ⟨by simp [QRDetector.detect], fun d pts dist h => ?_⟩
      rw [QRDetector.detect] at h
      simp at h
    | cons c0 rest =>
      have hne : ¬ (retval = false ∨ (c0 :: rest).length = 0) := by simp [hr]
      have hdet : QRDetector.detect qs fx retval (c0 :: rest)
          = QRDetector.detectFold qs fx (c0 :: rest) none 1e9 := by
        rw [QRDetector.detect, if_neg hne]
      rcases detectFold_spec qs fx (c0 :: rest) none 1e9 with
        ⟨heq, hall⟩ | ⟨c₁, hm, hv, heq, _hlt, hmin⟩
      · have hnov : ∀ c ∈ c0 :: rest, ¬ QRDetector.valid c := by
          intro c hc hv
          exact absurd (hall c hc hv) (not_le.mpr (hbig c hv))
        refine ⟨?_, fun d pts dist h => ?_⟩
        · rw [hdet, heq]
          exact iff_of_true rfl (Or.inr (Or.inr hnov))
        · rw [hdet, heq] at h
          exact absurd h (by simp)
      · refine ⟨?_, fun d pts dist h => ?_⟩
        · rw [hdet, heq]
          constructor
          · intro h
            exact absurd h (by simp)
          · intro h
            rcases h with h | h | h
            · exact absurd h hr
            · exact absurd h (by simp)
            · exact absurd hv (h c₁ hm)
        · rw [hdet, heq] at h
          have h' : c₁.data = d ∧ c₁.pts = pts ∧ qs * fx / pixel_size c₁.pts = dist := by
            have := Option.some.inj h
            exact ⟨congrArg (fun t => t.1) this,
              congrArg (fun t => t.2.1) this, congrArg (fun t => t.2.2) this⟩
          obtain ⟨hd, hp, hdist⟩ := h'
          refine ⟨c₁, hm, hv, hd.symm, hp.symm, hdist.symm, fun c' hc' hv' => ?_⟩
          rw [← hdist]
          exact hmin c' hc' hv'

/-- Witness for C7 (amended) at concrete inputs: `qr_size_cm * fx = 1500`
satisfies both bounds, and on a frame whose only candidates are an
empty-payload marker and a too-small (10 px) marker, `detect` reports
`lost = true`. -/
theorem C7_amended_witness :
    (0:ℝ) < (5/2) * 600 ∧ (5/2:ℝ) * 600 < 2 * 10 ^ 10 ∧
    QRDetector.detect (5/2) 600 true [⟨"", quadQ40⟩] = none := by
  refine ⟨by norm_num, by norm_num, ?_⟩
  exact (C7_amended_selection (5/2) 600 true [⟨"", quadQ40⟩]
    (by norm_num) (by norm_num)).1.mpr
    (Or.inr (Or.inr (by
      intro c hc hv
      rcases List.mem_cons.mp hc with rfl | hc
      · exact hv.1 rfl
      · exact absurd hc (List.not_mem_nil c))))

/-! ### Motion command bounds: claim C1 -/

lemma max0_nonneg (x : ℚ) : 0 ≤ max 0 x := le_max_left 0 x

lemma max0_le_one {x : ℚ} (h : x ≤ 1) : max 0 x ≤ 1 := max_le (by norm_num) h

lemma clamp_default_bounds (v : ℚ) :
    -1 ≤ MotionController.clamp defaultSpeedParams v ∧
    MotionController.clamp defaultSpeedParams v ≤ 1 := by
  unfold MotionController.clamp
  constructor
  · exact le_trans (by norm_num [defaultSpeedParams]) (le_max_left _ _)
  · exact max_le (by norm_num [defaultSpeedParams])
      (le_trans (min_le_left _ _) (by norm_num [defaultSpeedParams]))

lemma search_toward_target_bounds (halt td cum : ℚ) (hh : halt = 0 ∨ halt = 1) :
    0 ≤ (MotionController.search_toward_target defaultSpeedParams halt td cum).1 ∧
    (MotionController.search_toward_target defaultSpeedParams halt td cum).1 ≤ 1 ∧
    0 ≤ (MotionController.search_toward_target defaultSpeedParams halt td cum).2.1 ∧
    (MotionController.search_toward_target defaultSpeedParams halt td cum).2.1 ≤ 1 := by
  have habs : (0:ℚ) ≤ |max (-100) (min 100 td) / 100| := abs_nonneg _
  unfold MotionController.search_toward_target
  rcases hh with rfl | rfl <;>
    dsimp only <;>
    split_ifs <;>
    refine ⟨max0_nonneg _, max0_le_one ?_, max0_nonneg _, max0_le_one ?_⟩ <;>
    norm_num [defaultSpeedParams] <;>
    nlinarith [habs]

set_option maxHeartbeats 4000000 in
lemma smart_avoidance_bounds (obst : ObstacleDict) (td cum : ℚ) :
    -1 ≤ (MotionController.smart_avoidance defaultSpeedParams obst td cum).1 ∧
    (MotionController.smart_avoidance defaultSpeedParams obst td cum).1 ≤ 1 ∧
    -1 ≤ (MotionController.smart_avoidance defaultSpeedParams obst td cum).2.1 ∧
    (MotionController.smart_avoidance defaultSpeedParams obst td cum).2.1 ≤ 1 := by
  unfold MotionController.smart_avoidance
  dsimp only
  generalize hH : (if obst.need_stop = true then (0:ℚ) else 1) = halt
  have hhalt : halt = 0 ∨ halt = 1 := by
    rw [← hH]
    split_ifs <;> simp
  cases obst.action with
  | none =>
    have hs := search_toward_target_bounds halt td cum hhalt
    dsimp only
    split_ifs
    · exact ⟨(clamp_default_bounds _).1, (clamp_default_bounds _).2,
        (clamp_default_bounds _).1, (clamp_default_bounds _).2⟩
    · exact ⟨(clamp_default_bounds _).1, (clamp_default_bounds _).2,
        (clamp_default_bounds _).1, (clamp_default_bounds _).2⟩
    · exact ⟨le_trans (by norm_num) hs.1, hs.2.1,
        le_trans (by norm_num) hs.2.2.1, hs.2.2.2⟩
  | some a =>
    cases a with
    | stop =>
      rcases hhalt with rfl | rfl <;> dsimp only <;> split_ifs <;>
        first
          | (norm_num [defaultSpeedParams]; done)
          | exact ⟨(clamp_default_bounds _).1, (clamp_default_bounds _).2,
              (clamp_default_bounds _).1, (clamp_default_bounds _).2⟩
    | right =>
      rcases hhalt with rfl | rfl <;> dsimp only <;> split_ifs <;>
        first
          | (norm_num [defaultSpeedParams]; done)
          | exact ⟨(clamp_default_bounds _).1, (clamp_default_bounds _).2,
              (clamp_default_bounds _).1, (clamp_default_bounds _).2⟩
    | left =>
      rcases hhalt with rfl | rfl <;> dsimp only <;> split_ifs <;>
        first
          | (norm_num [defaultSpeedParams]; done)
          | exact ⟨(clamp_default_bounds _).1, (clamp_default_bounds _).2,
              (clamp_default_bounds _).1, (clamp_default_bounds _).2⟩
    | forward =>
      rcases hhalt with rfl | rfl <;> dsimp only <;> split_ifs <;>
        first
          | (norm_num [defaultSpeedParams]; done)
          | exact ⟨(clamp_default_bounds _).1, (clamp_default_bounds _).2,
              (clamp_default_bounds _).1, (clamp_default_bounds _).2⟩

lemma track_leaf_bounds (f1 ts : ℚ) (hf1 : 0 ≤ f1) (hts0 : 0 ≤ ts) (hts1 : ts ≤ 1) :
    -1 ≤ max 0 (min f1 1) ∧ max 0 (min f1 1) ≤ 1 ∧
    -1 ≤ max 0 (min f1 1 * (1 - ts * (45/100))) ∧
    max 0 (min f1 1 * (1 - ts * (45/100))) ≤ 1 := by
  have hF0 : (0:ℚ) ≤ min f1 1 := le_min hf1 (by norm_num)
  have hF1 : min f1 1 ≤ 1 := min_le_right _ _
  have hfac0 : (0:ℚ) ≤ 1 - ts * (45/100) := by nlinarith
  have hfac1 : 1 - ts * (45/100) ≤ 1 := by nlinarith
  exact ⟨le_trans (by norm_num) (max0_nonneg _), max0_le_one hF1,
    le_trans (by norm_num) (max0_nonneg _), max0_le_one (by nlinarith)⟩

set_option maxHeartbeats 1000000 in
lemma normal_tracking_bounds (qr : QrInput) (obst : ObstacleDict) :
    -1 ≤ (MotionController.normal_tracking defaultSpeedParams qr obst).1 ∧
    (MotionController.normal_tracking defaultSpeedParams qr obst).1 ≤ 1 ∧
    -1 ≤ (MotionController.normal_tracking defaultSpeedParams qr obst).2.1 ∧
    (MotionController.normal_tracking defaultSpeedParams qr obst).2.1 ≤ 1 := by
  unfold MotionController.normal_tracking
  dsimp only
  by_cases hg : obst.obstacle_type = "ground_obstacle" ∧
      obst.distance_cm < defaultSpeedParams.obstacle_safe_distance ∧
      obst.distance_cm < qr.distance_cm * (8/10)
  · rw [if_pos hg]
    split_ifs <;> norm_num [defaultSpeedParams]
  · rw [if_neg hg]
    by_cases hstop : qr.distance_cm ≤ defaultSpeedParams.stop_near
    · rw [if_pos hstop]
      norm_num
    · rw [if_neg hstop]
      dsimp only
      have hdist' : (22:ℚ) < qr.distance_cm := by
        have h := not_le.mp hstop
        simpa [defaultSpeedParams] using h
      have hdf0 : (0:ℚ) ≤ min 1 ((qr.distance_cm - defaultSpeedParams.stop_near) /
          (defaultSpeedParams.track_far - defaultSpeedParams.stop_near)) := by
        refine le_min (by norm_num) ?_
        simp only [defaultSpeedParams]
        exact div_nonneg (by linarith) (by norm_num)
      have hdf1 : min 1 ((qr.distance_cm - defaultSpeedParams.stop_near) /
          (defaultSpeedParams.track_far - defaultSpeedParams.stop_near)) ≤ 1 :=
        min_le_left _ _
      have hf0_0 : (0:ℚ) ≤ defaultSpeedParams.base_forward +
          min 1 ((qr.distance_cm - defaultSpeedParams.stop_near) /
            (defaultSpeedParams.track_far - defaultSpeedParams.stop_near)) *
          (defaultSpeedParams.max_speed - defaultSpeedParams.base_forward) := by
        simp only [defaultSpeedParams] at hdf0 hdf1 ⊢
        nlinarith
      have hfa : (0:ℚ) ≤ (defaultSpeedParams.base_forward +
          min 1 ((qr.distance_cm - defaultSpeedParams.stop_near) /
            (defaultSpeedParams.track_far - defaultSpeedParams.stop_near)) *
          (defaultSpeedParams.max_speed - defaultSpeedParams.base_forward)) * (11/10) :=
        mul_nonneg hf0_0 (by norm_num)
      have hfb : (0:ℚ) ≤ (defaultSpeedParams.base_forward +
          min 1 ((qr.distance_cm - defaultSpeedParams.stop_near) /
            (defaultSpeedParams.track_far - defaultSpeedParams.stop_near)) *
          (defaultSpeedParams.max_speed - defaultSpeedParams.base_forward)) * (9/10) :=
        mul_nonneg hf0_0 (by norm_num)
      have hts0 : (0:ℚ) ≤ min (|qr.cx_off| / 100) 1 := le_min (by positivity) (by norm_num)
      have hts1 : min (|qr.cx_off| / 100) 1 ≤ 1 := min_le_right _ _
      have La := track_leaf_bounds _ _ hfa hts0 hts1
      have Lb := track_leaf_bounds _ _ hfb hts0 hts1
      have Lc := track_leaf_bounds _ _ hf0_0 hts0 hts1
      split_ifs <;>
        first
          | exact ⟨La.1, La.2.1, La.1, La.2.1⟩
          | exact ⟨La.1, La.2.1, La.2.2.1, La.2.2.2⟩
          | exact ⟨La.2.2.1, La.2.2.2, La.1, La.2.1⟩
          | exact ⟨Lb.1, Lb.2.1, Lb.1, Lb.2.1⟩
          | exact ⟨Lb.1, Lb.2.1, Lb.2.2.1, Lb.2.2.2⟩
          | exact ⟨Lb.2.2.1, Lb.2.2.2, Lb.1, Lb.2.1⟩
          | exact ⟨Lc.1, Lc.2.1, Lc.1, Lc.2.1⟩
          | exact ⟨Lc.1, Lc.2.1, Lc.2.2.1, Lc.2.2.2⟩
          | exact ⟨Lc.2.2.1, Lc.2.2.2, Lc.1, Lc.2.1⟩

/-- C1: for every call to the package-variant `MotionController.compute`
with the default speed parameters, from any controller state whose `Halt`
flag is `0` or `1` (the only values the source ever assigns), and whatever
the `qr_state`, `obstacle_state` and `extra_info` arguments, the returned
`left_speed` and `right_speed` both lie within `[min_speed, max_speed]`. -/
theorem C1_speed_bounds (s : MCState) (qr : QrInput) (obst : ObstacleDict)
    (extra : ExtraInfo) (now : ℚ) (hh : s.Halt = 0 ∨ s.Halt = 1) :
    defaultSpeedParams.min_speed
        ≤ (MotionController.compute defaultSpeedParams s qr obst extra now).1.left_speed ∧
    (MotionController.compute defaultSpeedParams s qr obst extra now).1.left_speed
        ≤ defaultSpeedParams.max_speed ∧
    defaultSpeedParams.min_speed
        ≤ (MotionController.compute defaultSpeedParams s qr obst extra now).1.right_speed ∧
    (MotionController.compute defaultSpeedParams s qr obst extra now).1.right_speed
        ≤ defaultSpeedParams.max_speed := by
  have hmin : defaultSpeedParams.min_speed = -1 := rfl
  have hmax : defaultSpeedParams.max_speed = 1 := rfl
  rw [hmin, hmax]
  unfold MotionController.compute
  dsimp only
  split_ifs with hlost hhist hnear
  · exact normal_tracking_bounds qr obst
  · exact normal_tracking_bounds qr obst
  · exact smart_avoidance_bounds obst extra.target_direction _
  · have hH : (MotionController.update_rotation_estimate s s.last_left_speed
        s.last_right_speed now).1.Halt = 0 ∨
        (MotionController.update_rotation_estimate s s.last_left_speed
          s.last_right_speed now).1.Halt = 1 := by
      simpa [MotionController.update_rotation_estimate] using hh
    have h := search_toward_target_bounds
      (MotionController.update_rotation_estimate s s.last_left_speed
        s.last_right_speed now).1.Halt
      extra.target_direction
      (MotionController.update_rotation_estimate s s.last_left_speed
        s.last_right_speed now).2 hH
    exact ⟨le_trans (by norm_num) h.1, h.2.1, le_trans (by norm_num) h.2.2.1, h.2.2.2⟩

/-- Witness for C1 at a concrete input: the fresh controller state has
`Halt = 1`, and a tick with a lost marker and a near obstacle commanding a
right turn stays within `[-1, 1]`. -/
theorem C1_speed_bounds_witness :
    (MCState.init.Halt = 0 ∨ MCState.init.Halt = 1) ∧
    (defaultSpeedParams.min_speed
        ≤ (MotionController.compute defaultSpeedParams MCState.init
            ⟨true, 0, 0, 0, 0, 0⟩
            (ObstacleDict.mk true false true (some .right) 25 30 "unknown" false)
            ⟨0, 0⟩ 1).1.left_speed ∧
      (MotionController.compute defaultSpeedParams MCState.init
            ⟨true, 0, 0, 0, 0, 0⟩
            (ObstacleDict.mk true false true (some .right) 25 30 "unknown" false)
            ⟨0, 0⟩ 1).1.left_speed
          ≤ defaultSpeedParams.max_speed ∧
      defaultSpeedParams.min_speed
          ≤ (MotionController.compute defaultSpeedParams MCState.init
              ⟨true, 0, 0, 0, 0, 0⟩
              (ObstacleDict.mk true false true (some .right) 25 30 "unknown" false)
              ⟨0, 0⟩ 1).1.right_speed ∧
      (MotionController.compute defaultSpeedParams MCState.init
            ⟨true, 0, 0, 0, 0, 0⟩
            (ObstacleDict.mk true false true (some .right) 25 30 "unknown" false)
            ⟨0, 0⟩ 1).1.right_speed
          ≤ defaultSpeedParams.max_speed) :=
  ⟨Or.inr rfl,
    C1_speed_bounds MCState.init ⟨true, 0, 0, 0, 0, 0⟩
      (ObstacleDict.mk true false true (some .right) 25 30 "unknown" false)
      ⟨0, 0⟩ 1 (Or.inr rfl)⟩

/-! ### Dead-reckoning rotation estimate: claim C4 -/

/-- After any `compute` call, the stored `last_left_speed` is `0.7` times
the issued left speed (line `self.last_left_speed = left*0.7` of the
source), the stored `last_right_speed` is the issued right speed, the
stored last update time is the tick time, and the stored cumulative
rotation is the returned estimate. -/
lemma compute_state_eq (p : SpeedParams) (s : MCState) (qr : QrInput)
    (obst : ObstacleDict) (extra : ExtraInfo) (now : ℚ) :
    (MotionController.compute p s qr obst extra now).2.last_left_speed
        = (MotionController.compute p s qr obst extra now).1.left_speed * (7/10) ∧
    (MotionController.compute p s qr obst extra now).2.last_right_speed
        = (MotionController.compute p s qr obst extra now).1.right_speed ∧
    (MotionController.compute p s qr obst extra now).2.last_update_time = now ∧
    (MotionController.compute p s qr obst extra now).2.cumulative_rotation
        = (MotionController.compute p s qr obst extra now).1.rotation_estimate := by
  unfold MotionController.compute
  refine ⟨?_, ?_, ?_, ?_⟩ <;>
    (try dsimp only) <;>
    first
      | rfl
      | (split_ifs <;> rfl)

/-- The returned rotation estimate is the value produced by the
dead-reckoning update at the start of `compute`. -/
lemma compute_rotation_eq (p : SpeedParams) (s : MCState) (qr : QrInput)
    (obst : ObstacleDict) (extra : ExtraInfo) (now : ℚ) :
    (MotionController.compute p s qr obst extra now).1.rotation_estimate
      = (MotionController.update_rotation_estimate s s.last_left_speed
          s.last_right_speed now).2 := by
  unfold MotionController.compute
  dsimp only

lemma pymod_bounds (a : ℚ) : 0 ≤ pymod a 360 ∧ pymod a 360 < 360 := by
  unfold pymod
  have hfl : (⌊a / 360⌋ : ℚ) ≤ a / 360 := Int.floor_le _
  have hfl2 : a / 360 < ⌊a / 360⌋ + 1 := Int.lt_floor_add_one _
  have hmul : a / 360 * 360 = a := div_mul_cancel₀ a (by norm_num)
  constructor <;> nlinarith [hfl, hfl2, hmul]

/-- C4 counterexample: starting from the fresh controller state, a first
tick at `t = 1` (lost marker, no obstacle) issues `left = right = 0.2`
(`search_forward`).  The claim's dead-reckoning formula with the previous
tick's *issued* speeds predicts a zero increment, so the estimate should
stay `0` and in particular lie in `[-360, 360)`.  But the code stored
`0.2 * 0.7 = 0.14` as the last left speed, so the second tick at
`t = 53/3` integrates `((0.2 - 0.14)/0.5) * 180 * (50/3) = 360` and returns
a rotation estimate of `360`, which also falls outside `[-360, 360)`. -/
theorem C4_counterexample :
    (MotionController.compute defaultSpeedParams MCState.init
        ⟨true, 0, 0, 0, 0, 0⟩ ⟨false, false, false, none, 9999, 30, "unknown", false⟩
        ⟨0, 0⟩ 1).1.left_speed = 2/10 ∧
    (MotionController.compute defaultSpeedParams MCState.init
        ⟨true, 0, 0, 0, 0, 0⟩ ⟨false, false, false, none, 9999, 30, "unknown", false⟩
        ⟨0, 0⟩ 1).1.right_speed = 2/10 ∧
    (MotionController.compute defaultSpeedParams
        (MotionController.compute defaultSpeedParams MCState.init
          ⟨true, 0, 0, 0, 0, 0⟩ ⟨false, false, false, none, 9999, 30, "unknown", false⟩
          ⟨0, 0⟩ 1).2
        ⟨true, 0, 0, 0, 0, 0⟩ ⟨false, false, false, none, 9999, 30, "unknown", false⟩
        ⟨0, 0⟩ (53/3)).1.rotation_estimate = 360 ∧
    ((2/10 - 2/10 : ℚ) / (5/10)) * 180 * (53/3 - 1) = 0 ∧
    ¬ ((360:ℚ) < 360) := by
  refine ⟨?_, ?_, ?_, by norm_num, by norm_num⟩ <;>
    norm_num [MotionController.compute, MotionController.update_rotation_estimate,
      MotionController.estimate_rotation, MotionController.search_toward_target,
      MCState.init, defaultSpeedParams]

/-- C4 (amended): on every control tick with positive elapsed time, before
computing the new command, the controller updates the cumulative rotation
estimate by `((right_prev - 0.7·left_prev) / max_speed_diff) *
max_rotation_rate * dt`, where `left_prev`/`right_prev` are the previous
tick's issued wheel speeds — the controller stores `0.7` times the issued
left speed for dead reckoning — wrapping by Python `% 360` when the
magnitude exceeds `360`; after every update the estimate lies within
`[-360, 360]` (the endpoint `360` is attainable). -/
theorem C4_amended_rotation (p : SpeedParams) (s : MCState) (qr1 qr2 : QrInput)
    (ob1 ob2 : ObstacleDict) (e1 e2 : ExtraInfo) (t1 t2 : ℚ)
    (out1 : MotionOut) (s1 : MCState)
    (h1 : MotionController.compute p s qr1 ob1 e1 t1 = (out1, s1))
    (ht : t1 < t2) :
    (MotionController.compute p s1 qr2 ob2 e2 t2).1.rotation_estimate
      = (if 360 < |out1.rotation_estimate +
            ((out1.right_speed - out1.left_speed * (7/10)) / (5/10)) * 180 * (t2 - t1)|
         then pymod (out1.rotation_estimate +
            ((out1.right_speed - out1.left_speed * (7/10)) / (5/10)) * 180 * (t2 - t1)) 360
         else out1.rotation_estimate +
            ((out1.right_speed - out1.left_speed * (7/10)) / (5/10)) * 180 * (t2 - t1)) ∧
    -360 ≤ (MotionController.compute p s1 qr2 ob2 e2 t2).1.rotation_estimate ∧
    (MotionController.compute p s1 qr2 ob2 e2 t2).1.rotation_estimate ≤ 360 := by
  have hs := compute_state_eq p s qr1 ob1 e1 t1
  rw [h1] at hs
  obtain ⟨hll, hlr, hlt, hcum⟩ := hs
  dsimp only at hll hlr hlt hcum
  have hdt : 0 < t2 - s1.last_update_time := by
    rw [hlt]
    linarith
  have hkey : (MotionController.compute p s1 qr2 ob2 e2 t2).1.rotation_estimate
      = (if 360 < |out1.rotation_estimate +
            ((out1.right_speed - out1.left_speed * (7/10)) / (5/10)) * 180 * (t2 - t1)|
         then pymod (out1.rotation_estimate +
            ((out1.right_speed - out1.left_speed * (7/10)) / (5/10)) * 180 * (t2 - t1)) 360
         else out1.rotation_estimate +
            ((out1.right_speed - out1.left_speed * (7/10)) / (5/10)) * 180 * (t2 - t1)) := by
    rw [compute_rotation_eq]
    unfold MotionController.update_rotation_estimate
    dsimp only
    rw [if_pos hdt]
    unfold MotionController.estimate_rotation
    rw [if_neg (not_le.mpr hdt)]
    rw [hll, hlr, hlt, hcum]
  refine ⟨hkey, ?_, ?_⟩
  · rw [hkey]
    split_ifs with hc
    · linarith [(pymod_bounds (out1.rotation_estimate +
        ((out1.right_speed - out1.left_speed * (7/10)) / (5/10)) * 180 * (t2 - t1))).1]
    · linarith [(abs_le.mp (not_lt.mp hc)).1]
  · rw [hkey]
    split_ifs with hc
    · linarith [(pymod_bounds (out1.rotation_estimate +
        ((out1.right_speed - out1.left_speed * (7/10)) / (5/10)) * 180 * (t2 - t1))).2]
    · linarith [(abs_le.mp (not_lt.mp hc)).2]

/-- Witness for C4 (amended) at a concrete pair of ticks: two consecutive
`compute` calls at times `1 < 2` from the fresh state, with the rotation
estimate after the second update inside `[-360, 360]`. -/
theorem C4_amended_witness :
    (1:ℚ) < 2 ∧
    (-360 ≤ (MotionController.compute defaultSpeedParams
        (MotionController.compute defaultSpeedParams MCState.init
          ⟨true, 0, 0, 0, 0, 0⟩ ⟨false, false, false, none, 9999, 30, "unknown", false⟩
          ⟨0, 0⟩ 1).2
        ⟨true, 0, 0, 0, 0, 0⟩ ⟨false, false, false, none, 9999, 30, "unknown", false⟩
        ⟨0, 0⟩ 2).1.rotation_estimate ∧
      (MotionController.compute defaultSpeedParams
        (MotionController.compute defaultSpeedParams MCState.init
          ⟨true, 0, 0, 0, 0, 0⟩ ⟨false, false, false, none, 9999, 30, "unknown", false⟩
          ⟨0, 0⟩ 1).2
        ⟨true, 0, 0, 0, 0, 0⟩ ⟨false, false, false, none, 9999, 30, "unknown", false⟩
        ⟨0, 0⟩ 2).1.rotation_estimate ≤ 360) :=
  ⟨by norm_num,
    (C4_amended_rotation defaultSpeedParams MCState.init
      ⟨true, 0, 0, 0, 0, 0⟩ ⟨true, 0, 0, 0, 0, 0⟩
      ⟨false, false, false, none, 9999, 30, "unknown", false⟩
      ⟨false, false, false, none, 9999, 30, "unknown", false⟩
      ⟨0, 0⟩ ⟨0, 0⟩ 1 2
      (MotionController.compute defaultSpeedParams MCState.init
        ⟨true, 0, 0, 0, 0, 0⟩ ⟨false, false, false, none, 9999, 30, "unknown", false⟩
        ⟨0, 0⟩ 1).1
      (MotionController.compute defaultSpeedParams MCState.init
        ⟨true, 0, 0, 0, 0, 0⟩ ⟨false, false, false, none, 9999, 30, "unknown", false⟩
        ⟨0, 0⟩ 1).2
      rfl (by norm_num)).2⟩
